import Mathlib

/- A shallow embedding of the session/subscription core of the market-data
streaming client (src/app/page.tsx).

JSON values are modelled by `JVal` and JavaScript objects by association
lists from string keys to `JVal`; a present key may carry `JVal.null`, so a
missing key and an explicit JSON `null` are distinguished, and numeric field
values are rationals.  The React component's state (the `useState` hooks, the
`wsRef` transport handle, the `pendingSubscriptionsRef` ref and the three
`localStorage` keys) is collected in `ClientState`.  Two ghost fields record
observable effects: `sentRequests` logs every `ws.send` and `openedCount`
counts `new WebSocket(...)` constructions.  Non-string `symbol` fields in
inbound frames (which JavaScript would coerce to object keys) are outside the
model and are treated as "no symbol"; the stale-closure behaviour of React
render captures is not modelled (credentials are read from the current
state). -/

namespace MarketClient

inductive JVal where
  | null : JVal
  | num : Rat → JVal
  | str : String → JVal
  | obj : List (String × JVal) → JVal

abbrev Obj := List (String × JVal)

/-- Association-list lookup, the model of reading a JavaScript object key. -/
def lookupK {α : Type} : List (String × α) → String → Option α
  | [], _ => none
  | p :: rest, k => if p.1 = k then some p.2 else lookupK rest k

/-- Set a key, keeping its position if present, appending otherwise: the
model of `obj[k] = v` and of a later entry of an object literal overriding
an earlier one. -/
def setK {α : Type} : List (String × α) → String → α → List (String × α)
  | [], k, v => [(k, v)]
  | p :: rest, k, v => if p.1 = k then (k, v) :: setK rest k v else p :: setK rest k v

/-- The model of `delete obj[k]`. -/
def removeK {α : Type} (m : List (String × α)) (k : String) : List (String × α) :=
  m.filter (fun p => p.1 != k)

/-- Reading `obj.k` where a missing key (`undefined`) is collapsed to `null`,
which is how every read in the source consumes it (via `??` or `===`). -/
def readK (o : Obj) (k : String) : JVal := (lookupK o k).getD JVal.null

/-- JavaScript truthiness of the modelled values. -/
def JVal.truthy : JVal → Bool
  | .null => false
  | .num q => q != 0
  | .str s => s != ""
  | .obj _ => true

/-- `v.k` on an arbitrary value: object lookup, `undefined`≈`null` otherwise. -/
def jfield : JVal → String → JVal
  | .obj fs, k => readK fs k
  | _, _ => .null

/-- The `a ?? b` operator (null-coalescing, after undefined↦null collapse). -/
def orNull (a b : JVal) : JVal :=
  match a with
  | .null => b
  | x => x

/-- Spreading object `o` over the entries of `base`, as in `{...base-entries,
...o}`: every key of `o` overrides, in order. -/
def spreadOnto (base : Obj) (o : Obj) : Obj :=
  o.foldl (fun acc p => setK acc p.1 p.2) base

/-- The `normalized` object literal built in the `onmessage` handler
(page.tsx lines 199-210): explicit canonical fields with `?? null`
defaults, followed by the spread `...marketInfo` which overrides them. -/
def normalizeFrame (mi : Obj) : Obj :=
  spreadOnto
    [("symbol", readK mi "symbol"),
     ("ltp", readK mi "ltp"),
     ("change", readK mi "change"),
     ("changePercent", orNull (readK mi "p_change") (readK mi "changePercent")),
     ("volume", orNull (readK mi "tot_vol") (readK mi "volume")),
     ("high", readK mi "high"),
     ("low", readK mi "low"),
     ("open", readK mi "open"),
     ("close", readK mi "close")]
    mi

inductive WSStatus where
  | connected | disconnected | error
  deriving DecidableEq

inductive MessageType where
  | sent | received | error | success | info
  deriving DecidableEq

inductive StreamingType where
  | ltpinfo | marketPicture | login | logout
  deriving DecidableEq

inductive RequestType where
  | subscribe | unsubscribe
  deriving DecidableEq

/-- The string value of a `StreamingType`, as interpolated by `${i.type}`. -/
def streamingTypeStr : StreamingType → String
  | .ltpinfo => "ltpinfo"
  | .marketPicture => "marketPicture"
  | .login => "login"
  | .logout => "logout"

structure SubscribedToken where
  token : String
  type : StreamingType
  deriving DecidableEq

/-- The dedup key `${i.token}-${i.type}` used by `subscribeToken`. -/
def subKey (t : SubscribedToken) : String :=
  t.token ++ "-" ++ streamingTypeStr t.type

def subPair (t : SubscribedToken) : String × StreamingType :=
  (t.token, t.type)

structure Creds where
  gscid : String
  gcid : String
  sessionId : String
  deviceId : String
  deriving DecidableEq

/-- Outbound request payload: credentials for login/logout, a symbol list for
subscribe/unsubscribe. -/
inductive Payload where
  | credsData (gscid gcid sessionId deviceId device_type : String)
  | symbolsData (symbols : List String)
  deriving DecidableEq

/-- The outbound wire envelope `{ request: {...} }`. -/
structure Request where
  request_type : RequestType
  streamingType : StreamingType
  data : Payload
  gscid : Option String
  gcid : Option String
  response_format : Option String
  deriving DecidableEq

def loginRequest (c : Creds) : Request :=
  { request_type := .subscribe, streamingType := .login,
    data := .credsData c.gscid c.gcid c.sessionId c.deviceId "0",
    gscid := none, gcid := none, response_format := some "json" }

def logoutRequest (c : Creds) : Request :=
  { request_type := .unsubscribe, streamingType := .logout,
    data := .credsData c.gscid c.gcid c.sessionId c.deviceId "0",
    gscid := none, gcid := none, response_format := some "json" }

def subscribeRequest (c : Creds) (token : String) (ty : StreamingType) : Request :=
  { request_type := .subscribe, streamingType := ty,
    data := .symbolsData [token],
    gscid := some c.gscid, gcid := some c.gcid, response_format := none }

def unsubscribeRequest (c : Creds) (token : String) (ty : StreamingType) : Request :=
  { request_type := .unsubscribe, streamingType := ty,
    data := .symbolsData [token],
    gscid := some c.gscid, gcid := some c.gcid, response_format := none }

/-- Content of a log entry; formatted strings of the source are abstracted to
the structured data they are built from. -/
inductive LogContent where
  | text : String → LogContent
  | frame : JVal → LogContent
  | req : Request → LogContent
  | autoSub : String → StreamingType → LogContent
  | rawPayload : LogContent

structure LogMsg where
  type : MessageType
  content : LogContent

/-- The three `localStorage` keys, holding their parsed contents. -/
structure Storage where
  subscriptions : Option (List SubscribedToken)
  credentials : Option Creds
  wasLoggedIn : Option Bool

/-- A WebSocket instance: its creation index and whether `readyState` is
`OPEN`. -/
structure Socket where
  id : Nat
  ready : Bool
  deriving DecidableEq

structure ClientState where
  wsStatus : WSStatus
  isLoggedIn : Bool
  messages : List LogMsg
  subscribedTokens : List SubscribedToken
  marketData : List (String × Obj)
  gscid : String
  gcid : String
  sessionId : String
  deviceId : String
  newToken : String
  streamingType : StreamingType
  ws : Option Socket
  pendingSubscriptions : List SubscribedToken
  storage : Storage
  sentRequests : List Request
  openedCount : Nat
  loginScheduled : Bool

def ClientState.creds (st : ClientState) : Creds :=
  ⟨st.gscid, st.gcid, st.sessionId, st.deviceId⟩

/-- `wsRef.current && wsRef.current.readyState === WebSocket.OPEN`. -/
def wsOpen (st : ClientState) : Bool :=
  match st.ws with
  | some s => s.ready
  | none => false

def addMsg (st : ClientState) (t : MessageType) (c : LogContent) : ClientState :=
  { st with messages := st.messages ++ [⟨t, c⟩] }

def sendReq (st : ClientState) (r : Request) : ClientState :=
  { st with sentRequests := st.sentRequests ++ [r] }

/-- The `marketData[s]` record (empty object when absent). -/
def storedRecord (st : ClientState) (s : String) : Obj :=
  (lookupK st.marketData s).getD []

/-- The initial component state: the `useState` initial values of page.tsx
lines 51-64, no transport, empty persistence. -/
def initState : ClientState :=
  { wsStatus := .disconnected, isLoggedIn := false, messages := [],
    subscribedTokens := [], marketData := [],
    gscid := "KS02", gcid := "218", sessionId := "dummy-session",
    deviceId := "dummy-device",
    newToken := "NSECM:2885", streamingType := .ltpinfo,
    ws := none, pendingSubscriptions := [],
    storage := ⟨none, none, none⟩,
    sentRequests := [], openedCount := 0, loginScheduled := false }

/-- `connectWebSocket` (lines 144-156 without the handlers, which are
modelled as the event functions below): unconditionally constructs a new
WebSocket (readyState CONNECTING) and stores it in `wsRef`. -/
def connectWebSocket (st : ClientState) : ClientState :=
  { st with ws := some ⟨st.openedCount, false⟩, openedCount := st.openedCount + 1 }

/-- The `onopen` handler: status → connected, success log, and scheduling of
the delayed auto-login when there are pending subscriptions or the persisted
login flag is `'true'`.  The `setTimeout(sendLogin, 500)` is modelled by the
`loginScheduled` flag; its firing is the `sendLogin` operation. -/
def onOpen (st : ClientState) : ClientState :=
  let st1 := { st with wsStatus := .connected,
                       ws := st.ws.map (fun s => { s with ready := true }) }
  let st2 := addMsg st1 .success (.text "WebSocket connected")
  if st2.pendingSubscriptions.length > 0 ∨ st2.storage.wasLoggedIn = some true then
    { st2 with loginScheduled := true }
  else st2

/-- The `onerror` handler (lines 222-225): an error log entry and
status → error.  It touches nothing else — in particular not `isLoggedIn`. -/
def onError (st : ClientState) : ClientState :=
  { (addMsg st .error (.text "WebSocket error occurred")) with wsStatus := .error }

/-- The `onclose` handler (lines 227-231): status → disconnected,
`isLoggedIn` → false, info log.  The socket is no longer OPEN. -/
def onClose (st : ClientState) : ClientState :=
  let st1 := { st with wsStatus := .disconnected, isLoggedIn := false,
                       ws := st.ws.map (fun s => { s with ready := false }) }
  addMsg st1 .info (.text "WebSocket disconnected")

/-- `disconnectWebSocket` (lines 237-248): closes/forgets the transport,
resets auth, registry, data store and pending ref, and removes the two
persisted keys (`subscriptions` and `wasLoggedIn`; credentials stay).
`wsStatus` is left to the close event. -/
def disconnectWebSocket (st : ClientState) : ClientState :=
  { st with ws := none,
            isLoggedIn := false,
            subscribedTokens := [],
            marketData := [],
            pendingSubscriptions := [],
            storage := { st.storage with subscriptions := none, wasLoggedIn := none } }

/-- `sendLogin` (lines 250-268): guarded only by the transport being OPEN;
sends the login envelope and logs it.  It does not read or write
`isLoggedIn`. -/
def sendLogin (st : ClientState) : ClientState :=
  if wsOpen st then
    let r := loginRequest st.creds
    addMsg (sendReq st r) .sent (.req r)
  else
    addMsg st .error (.text "Not connected")

/-- `sendLogout` (lines 270-290): silent no-op unless the transport is OPEN;
otherwise sends the logout envelope, then locally resets auth, registry,
data store, pending ref and the two persisted keys. -/
def sendLogout (st : ClientState) : ClientState :=
  if wsOpen st then
    let r := logoutRequest st.creds
    let st1 := addMsg (sendReq st r) .sent (.req r)
    { st1 with isLoggedIn := false,
               subscribedTokens := [],
               marketData := [],
               pendingSubscriptions := [],
               storage := { st1.storage with subscriptions := none, wasLoggedIn := none } }
  else st

/-- Whitespace removed by JavaScript `trim()` (the forms that occur in
practice). -/
def isJsSpace (c : Char) : Bool :=
  c == ' ' || c == '\t' || c == '\n' || c == '\r'

def trimChars (l : List Char) : List Char :=
  ((l.dropWhile isJsSpace).reverse.dropWhile isJsSpace).reverse

/-- `s.split(',')`: JavaScript split on every comma, keeping empty pieces
(`"".split(',')` is `[""]`). -/
def splitComma : List Char → List (List Char)
  | [] => [[]]
  | c :: rest =>
    match splitComma rest with
    | [] => [[]]
    | cur :: others => if c = ',' then [] :: cur :: others else (c :: cur) :: others

/-- `newToken.split(',').map(t => t.trim()).filter(Boolean)`. -/
def parseTokens (s : String) : List String :=
  ((splitComma s.data).map (fun l => String.mk (trimChars l))).filter (fun t => t != "")

/-- The per-token send loop of `subscribeToken`. -/
def sendAll (c : Creds) (ty : StreamingType) (acc : ClientState) : List String → ClientState
  | [] => acc
  | t :: rest =>
    sendAll c ty
      (addMsg (sendReq acc (subscribeRequest c t ty)) .sent (.req (subscribeRequest c t ty)))
      rest

/-- `subscribeToken` (lines 292-324): rejected with an error log when the
transport is not OPEN or not logged in; otherwise one wire send per parsed
token (not deduplicated), then the registry merge that filters out pairs
whose `${token}-${type}` key is already stored, and finally `newToken` is
cleared.  `Set.has` is modelled as list membership of the key. -/
def subscribeToken (st : ClientState) : ClientState :=
  if !(wsOpen st) || !st.isLoggedIn then
    addMsg st .error
      (.text (if !st.isLoggedIn then "Please login first" else "Not connected"))
  else
    let tokens := parseTokens st.newToken
    let st1 := sendAll st.creds st.streamingType st tokens
    let newSubs := tokens.map (fun t => SubscribedToken.mk t st.streamingType)
    let existing := st.subscribedTokens.map subKey
    let filtered := newSubs.filter (fun i => decide (subKey i ∉ existing))
    let updated := st.subscribedTokens ++ filtered
    { st1 with subscribedTokens := updated,
               pendingSubscriptions := updated,
               newToken := "" }

/-- `unsubscribeToken` (lines 326-350): silent no-op unless the transport is
OPEN; otherwise sends one unsubscribe envelope, removes the matching
(token, type) registry entry, and deletes `marketData[token]` — keyed by the
token alone. -/
def unsubscribeToken (st : ClientState) (token : String) (ty : StreamingType) : ClientState :=
  if wsOpen st then
    let r := unsubscribeRequest st.creds token ty
    let st1 := addMsg (sendReq st r) .sent (.req r)
    let updated :=
      st1.subscribedTokens.filter (fun i => decide (¬(i.token = token ∧ i.type = ty)))
    { st1 with subscribedTokens := updated,
               pendingSubscriptions := updated,
               marketData := removeK st1.marketData token }
  else st

/-- Detection of the login confirmation frame:
`parsed.response?.svcName === "Broadcast" && parsed.response?.streamingType
=== "login"`. -/
def isLoginConfirm (parsed : JVal) : Bool :=
  let resp := jfield parsed "response"
  match jfield resp "svcName", jfield resp "streamingType" with
  | .str a, .str b => a == "Broadcast" && b == "login"
  | _, _ => false

/-- Market-data extraction of the `onmessage` handler (lines 186-198): shape
(a) a truthy `parsed.response.data`, whose `symbol` is then consulted, else
shape (b) the top level when `parsed.symbol` is truthy.  Yields the symbol
key and the object the frame's fields are read from.  Truthy non-string
symbols are outside the model (see the header comment). -/
def extractMarket (parsed : JVal) : Option (String × Obj) :=
  let dataV := jfield (jfield parsed "response") "data"
  let pick : JVal :=
    if dataV.truthy then dataV
    else if (jfield parsed "symbol").truthy then parsed
    else .null
  match pick with
  | .obj fs =>
    match readK fs "symbol" with
    | .str s => if s == "" then none else some (s, fs)
    | _ => none
  | _ => none

/-- The auto-resubscribe loop run on login confirmation: one subscribe send
and one log entry per pending subscription, in order. -/
def replayAll (c : Creds) (acc : ClientState) : List SubscribedToken → ClientState
  | [] => acc
  | sub :: rest =>
    replayAll c
      (addMsg (sendReq acc (subscribeRequest c sub.token sub.type))
        .sent (.autoSub sub.token sub.type))
      rest

/-- The `onmessage` handler (lines 158-220) on a successfully parsed frame.
For the JSON text `"null"` the handler logs the parsed frame and then the
property access `parsed.response` throws, so the catch logs the raw payload.
Otherwise: received log; if the frame is a login confirmation, set
`isLoggedIn` and replay every pending subscription; independently, if a
market symbol is extracted, store the normalized record under it, replacing
whatever was there. -/
def onMessage (st : ClientState) (parsed : JVal) : ClientState :=
  match parsed with
  | .null => addMsg (addMsg st .received (.frame .null)) .received .rawPayload
  | _ =>
    let st1 := addMsg st .received (.frame parsed)
    let st2 :=
      if isLoginConfirm parsed then
        replayAll st.creds
          (addMsg { st1 with isLoggedIn := true }
            .success (.text "Login successful - auto-resubscribing tokens..."))
          st.pendingSubscriptions
      else st1
    match extractMarket parsed with
    | some (s, fs) => { st2 with marketData := setK st2.marketData s (normalizeFrame fs) }
    | none => st2

/-- The connection button (lines 410-418): `Connect` → `connectWebSocket` is
rendered only while `wsStatus === 'disconnected'`; every other status
renders `Disconnect` → `disconnectWebSocket`. -/
def connectionButton (st : ClientState) : ClientState :=
  if st.wsStatus = .disconnected then connectWebSocket st else disconnectWebSocket st

/-- The commands and transport events that can reach the component. -/
inductive Op where
  | connectWS
  | openEvt
  | msgEvt : JVal → Op
  | errorEvt
  | closeEvt
  | loginBtn
  | logoutBtn
  | subscribeBtn
  | unsubscribeBtn : String → StreamingType → Op
  | disconnectWS
  | setTokenInput : String → Op
  | setTypeInput : StreamingType → Op

def step (st : ClientState) : Op → ClientState
  | .connectWS => connectWebSocket st
  | .openEvt => onOpen st
  | .msgEvt f => onMessage st f
  | .errorEvt => onError st
  | .closeEvt => onClose st
  | .loginBtn => sendLogin st
  | .logoutBtn => sendLogout st
  | .subscribeBtn => subscribeToken st
  | .unsubscribeBtn tok ty => unsubscribeToken st tok ty
  | .disconnectWS => disconnectWebSocket st
  | .setTokenInput s => { st with newToken := s }
  | .setTypeInput ty => { st with streamingType := ty }

def run (st : ClientState) : List Op → ClientState
  | [] => st
  | op :: ops => run (step st op) ops

/-- Whether a single operation, taken at state `st`, parses a duplicate-free
token batch (trivially true for everything but a subscribe press). -/
def subOkHere (st : ClientState) : Op → Bool
  | .subscribeBtn => decide (parseTokens st.newToken).Nodup
  | _ => true

/-- Along a run, every `subscribeBtn` press parses a duplicate-free token
batch from the input field as it stands at that moment. -/
def subBatchesOk (st : ClientState) : List Op → Bool
  | [] => true
  | op :: ops => subOkHere st op && subBatchesOk (step st op) ops

/-- A well-formed login confirmation frame, as in spec §8's scenario. -/
def confirmFrame : JVal :=
  .obj [("response", .obj [("svcName", .str "Broadcast"), ("streamingType", .str "login")])]

/-- The wellformedness invariant the registry's dedup aims at: the stored
`${token}-${type}` keys are pairwise distinct. -/
def regKeysNodup (st : ClientState) : Prop :=
  (st.subscribedTokens.map subKey).Nodup

/-- The dedup key as a function of the (token, kind) pair. -/
def keyFn (p : String × StreamingType) : String :=
  p.1 ++ "-" ++ streamingTypeStr p.2

/-- Spec §8's scenario frames: first frame with ltp and p_change, second
frame with ltp only, for the same symbol. -/
def frameA : JVal :=
  .obj [("response", .obj [("data", .obj
    [("symbol", .str "NSECM:2885"), ("ltp", .num (101.5 : Rat)),
     ("p_change", .num (1.2 : Rat))])])]

def frameB : JVal :=
  .obj [("response", .obj [("data", .obj
    [("symbol", .str "NSECM:2885"), ("ltp", .num (102.0 : Rat))])])]

/-- A flat-shape data frame (inbound shape (b)). -/
def flatFrame : JVal := .obj [("symbol", .str "X"), ("ltp", .num 5)]

/-- A state with an open transport that is already logged in. -/
def openLoggedInState : ClientState :=
  { initState with isLoggedIn := true, wsStatus := .connected, ws := some ⟨0, true⟩ }

/-- A connected state holding one previously opened transport. -/
def connectedState : ClientState :=
  { initState with wsStatus := .connected, ws := some ⟨0, true⟩, openedCount := 1 }

/-- An open, not-yet-authenticated state with two registry entries. -/
def replayState : ClientState :=
  { initState with
      ws := some ⟨0, true⟩,
      subscribedTokens := [⟨"NSECM:2885", .ltpinfo⟩, ⟨"NSECM:22", .marketPicture⟩],
      pendingSubscriptions := [⟨"NSECM:2885", .ltpinfo⟩, ⟨"NSECM:22", .marketPicture⟩] }

/-- A logged-in open state whose input field repeats an already-stored
token. -/
def dupSubState : ClientState :=
  { initState with
      ws := some ⟨0, true⟩,
      isLoggedIn := true,
      subscribedTokens := [⟨"A", .ltpinfo⟩],
      pendingSubscriptions := [⟨"A", .ltpinfo⟩],
      newToken := "A" }

/-- An open state subscribed to the same token under both stream kinds, with
a market record stored for it. -/
def twoKindsState : ClientState :=
  { initState with
      ws := some ⟨0, true⟩,
      subscribedTokens := [⟨"A", .ltpinfo⟩, ⟨"A", .marketPicture⟩],
      pendingSubscriptions := [⟨"A", .ltpinfo⟩, ⟨"A", .marketPicture⟩],
      marketData := [("A", [("symbol", JVal.str "A")])] }

/-- A data object carrying neither percent-change nor volume alias. -/
def noAliasObj : Obj := [("symbol", JVal.str "S")]

end MarketClient

namespace MarketClient

/-! ## General lemmas about the object model -/

theorem lookup_setK {α : Type} (m : List (String × α)) (k : String) (v : α) (k' : String) :
    lookupK (setK m k v) k' = if k' = k then some v else lookupK m k' := by
  induction m with
  | nil =>
    by_cases h : k' = k
    · simp [setK, lookupK, h]
    · have h2 : ¬k = k' := fun hh => h hh.symm
      simp [setK, lookupK, h, h2]
  | cons p rest ih =>
    by_cases hp : p.1 = k
    · by_cases h : k' = k
      · simp [setK, lookupK, hp, h]
      · have h2 : ¬k = k' := fun hh => h hh.symm
        have h3 : ¬p.1 = k' := fun hh => h2 (hp.symm.trans hh)
        simp [setK, lookupK, hp, h, h2, h3, ih]
    · by_cases hq : p.1 = k'
      · have h4 : ¬k' = k := fun hh => hp (hq.trans hh)
        simp [setK, lookupK, hp, hq, h4]
      · simp [setK, lookupK, hp, hq, ih]

theorem lookup_eq_none {α : Type} (m : List (String × α)) (k : String)
    (h : k ∉ m.map Prod.fst) : lookupK m k = none := by
  induction m with
  | nil => rfl
  | cons p rest ih =>
    simp only [List.map_cons, List.mem_cons] at h
    push_neg at h
    simp only [lookupK, if_neg (fun hh : p.1 = k => h.1 hh.symm)]
    exact ih h.2

theorem lookup_removeK {α : Type} (m : List (String × α)) (k : String) :
    lookupK (removeK m k) k = none := by
  induction m with
  | nil => rfl
  | cons p rest ih =>
    by_cases h : p.1 = k
    · simpa [removeK, List.filter_cons, h] using ih
    · simpa [removeK, List.filter_cons, h, lookupK] using ih

theorem lookup_spread (o : Obj) : ∀ (base : Obj) (k : String),
    (o.map Prod.fst).Nodup →
    lookupK (spreadOnto base o) k =
      (match lookupK o k with
       | some v => some v
       | none => lookupK base k) := by
  induction o with
  | nil => intro base k _; simp [spreadOnto, lookupK]
  | cons p rest ih =>
    intro base k h
    simp only [List.map_cons, List.nodup_cons] at h
    have hstep : spreadOnto base (p :: rest) = spreadOnto (setK base p.1 p.2) rest := rfl
    rw [hstep, ih _ k h.2]
    by_cases hk : p.1 = k
    · have hrest : lookupK rest k = none := by
        apply lookup_eq_none
        rw [← hk]; exact h.1
      simp [hrest, lookup_setK, lookupK, hk]
    · have hk2 : ¬k = p.1 := fun hh => hk hh.symm
      simp only [lookupK, if_neg hk]
      cases hrk : lookupK rest k with
      | some v => simp
      | none => simp [lookup_setK, hk2]

theorem orNull_null (a : JVal) : orNull a .null = a := by cases a <;> rfl

theorem string_append_cancel (a b s : String) (h : a ++ s = b ++ s) : a = b := by
  cases a with | _ da =>
  cases b with | _ db =>
  cases s with | _ ds =>
  have hd : da ++ ds = db ++ ds := by
    have := congrArg String.data h
    simpa using this
  exact congrArg String.mk (List.append_cancel_right hd)

theorem subKey_inj_of_type (ty : StreamingType) :
    Function.Injective (fun t : String => subKey ⟨t, ty⟩) := by
  intro t1 t2 h
  simp only [subKey] at h
  exact string_append_cancel _ _ _ (by simpa [String.append_assoc] using h)

/-! ## How the normalizer treats the alias fields -/

theorem normalize_changePercent (mi : Obj) (h : (mi.map Prod.fst).Nodup) :
    readK (normalizeFrame mi) "changePercent" =
      (match lookupK mi "changePercent" with
       | some v => v
       | none => readK mi "p_change") := by
  unfold normalizeFrame readK
  rw [lookup_spread _ _ _ h]
  cases hc : lookupK mi "changePercent" with
  | some v => simp
  | none =>
    simp only [lookupK]
    rw [if_neg (by decide : ¬("symbol" = "changePercent")),
        if_neg (by decide : ¬("ltp" = "changePercent")),
        if_neg (by decide : ¬("change" = "changePercent"))]
    simp [orNull_null, readK, hc]

theorem normalize_volume (mi : Obj) (h : (mi.map Prod.fst).Nodup) :
    readK (normalizeFrame mi) "volume" =
      (match lookupK mi "volume" with
       | some v => v
       | none => readK mi "tot_vol") := by
  unfold normalizeFrame readK
  rw [lookup_spread _ _ _ h]
  cases hc : lookupK mi "volume" with
  | some v => simp
  | none =>
    simp only [lookupK]
    rw [if_neg (by decide : ¬("symbol" = "volume")),
        if_neg (by decide : ¬("ltp" = "volume")),
        if_neg (by decide : ¬("change" = "volume")),
        if_neg (by decide : ¬("changePercent" = "volume"))]
    simp [orNull_null, readK, hc]

/-! ## Projection lemmas for the event handlers -/

theorem replayAll_fields (c : Creds) (l : List SubscribedToken) : ∀ acc : ClientState,
    (replayAll c acc l).marketData = acc.marketData
    ∧ (replayAll c acc l).isLoggedIn = acc.isLoggedIn
    ∧ (replayAll c acc l).subscribedTokens = acc.subscribedTokens
    ∧ (replayAll c acc l).pendingSubscriptions = acc.pendingSubscriptions
    ∧ (replayAll c acc l).sentRequests =
        acc.sentRequests ++ l.map (fun sub => subscribeRequest c sub.token sub.type)
    ∧ (replayAll c acc l).newToken = acc.newToken
    ∧ (replayAll c acc l).ws = acc.ws
    ∧ (replayAll c acc l).wsStatus = acc.wsStatus
    ∧ (replayAll c acc l).streamingType = acc.streamingType
    ∧ (replayAll c acc l).storage = acc.storage := by
  induction l with
  | nil => intro acc; simp [replayAll]
  | cons sub rest ih =>
    intro acc
    simp [replayAll, ih, addMsg, sendReq]

theorem replayAll_subscribedTokens (c : Creds) (acc : ClientState) (l : List SubscribedToken) :
    (replayAll c acc l).subscribedTokens = acc.subscribedTokens :=
  (replayAll_fields c l acc).2.2.1

theorem replayAll_pendingSubscriptions (c : Creds) (acc : ClientState)
    (l : List SubscribedToken) :
    (replayAll c acc l).pendingSubscriptions = acc.pendingSubscriptions :=
  (replayAll_fields c l acc).2.2.2.1

theorem replayAll_isLoggedIn (c : Creds) (acc : ClientState) (l : List SubscribedToken) :
    (replayAll c acc l).isLoggedIn = acc.isLoggedIn :=
  (replayAll_fields c l acc).2.1

theorem replayAll_marketData (c : Creds) (acc : ClientState) (l : List SubscribedToken) :
    (replayAll c acc l).marketData = acc.marketData :=
  (replayAll_fields c l acc).1

theorem replayAll_sentRequests (c : Creds) (acc : ClientState) (l : List SubscribedToken) :
    (replayAll c acc l).sentRequests =
      acc.sentRequests ++ l.map (fun sub => subscribeRequest c sub.token sub.type) :=
  (replayAll_fields c l acc).2.2.2.2.1

theorem replayAll_ws (c : Creds) (acc : ClientState) (l : List SubscribedToken) :
    (replayAll c acc l).ws = acc.ws :=
  (replayAll_fields c l acc).2.2.2.2.2.2.1

theorem replayAll_wsStatus (c : Creds) (acc : ClientState) (l : List SubscribedToken) :
    (replayAll c acc l).wsStatus = acc.wsStatus :=
  (replayAll_fields c l acc).2.2.2.2.2.2.2.1

theorem replayAll_newToken (c : Creds) (acc : ClientState) (l : List SubscribedToken) :
    (replayAll c acc l).newToken = acc.newToken :=
  (replayAll_fields c l acc).2.2.2.2.2.1

theorem replayAll_streamingType (c : Creds) (acc : ClientState) (l : List SubscribedToken) :
    (replayAll c acc l).streamingType = acc.streamingType :=
  (replayAll_fields c l acc).2.2.2.2.2.2.2.2.1

theorem replayAll_storage (c : Creds) (acc : ClientState) (l : List SubscribedToken) :
    (replayAll c acc l).storage = acc.storage :=
  (replayAll_fields c l acc).2.2.2.2.2.2.2.2.2

theorem onMessage_fields (st : ClientState) (f : JVal) :
    (onMessage st f).subscribedTokens = st.subscribedTokens
    ∧ (onMessage st f).pendingSubscriptions = st.pendingSubscriptions
    ∧ (onMessage st f).isLoggedIn = (if isLoginConfirm f then true else st.isLoggedIn)
    ∧ (onMessage st f).sentRequests =
        (if isLoginConfirm f then
          st.sentRequests ++
            st.pendingSubscriptions.map (fun sub => subscribeRequest st.creds sub.token sub.type)
         else st.sentRequests)
    ∧ (onMessage st f).marketData =
        (match extractMarket f with
         | some (s, fs) => setK st.marketData s (normalizeFrame fs)
         | none => st.marketData)
    ∧ (onMessage st f).wsStatus = st.wsStatus
    ∧ (onMessage st f).ws = st.ws
    ∧ (onMessage st f).newToken = st.newToken
    ∧ (onMessage st f).streamingType = st.streamingType
    ∧ (onMessage st f).storage = st.storage := by
  cases f
  case null => exact ⟨rfl, rfl, rfl, rfl, rfl, rfl, rfl, rfl, rfl, rfl⟩
  all_goals
    simp only [onMessage]
    split <;> split <;>
      simp [replayAll_subscribedTokens, replayAll_pendingSubscriptions, replayAll_isLoggedIn,
        replayAll_marketData, replayAll_sentRequests, replayAll_ws, replayAll_wsStatus,
        replayAll_newToken, replayAll_streamingType, replayAll_storage, addMsg, sendReq, *]

theorem sendAll_fields (c : Creds) (ty : StreamingType) (l : List String) :
    ∀ acc : ClientState,
    (sendAll c ty acc l).subscribedTokens = acc.subscribedTokens
    ∧ (sendAll c ty acc l).pendingSubscriptions = acc.pendingSubscriptions
    ∧ (sendAll c ty acc l).isLoggedIn = acc.isLoggedIn
    ∧ (sendAll c ty acc l).marketData = acc.marketData
    ∧ (sendAll c ty acc l).sentRequests =
        acc.sentRequests ++ l.map (fun t => subscribeRequest c t ty)
    ∧ (sendAll c ty acc l).newToken = acc.newToken
    ∧ (sendAll c ty acc l).streamingType = acc.streamingType
    ∧ (sendAll c ty acc l).ws = acc.ws
    ∧ (sendAll c ty acc l).wsStatus = acc.wsStatus
    ∧ (sendAll c ty acc l).storage = acc.storage := by
  induction l with
  | nil => intro acc; simp [sendAll]
  | cons t rest ih =>
    intro acc
    simp [sendAll, ih, addMsg, sendReq]

theorem subscribeToken_pass (st : ClientState)
    (hw : wsOpen st = true) (hl : st.isLoggedIn = true) :
    (subscribeToken st).subscribedTokens =
      st.subscribedTokens ++
        ((parseTokens st.newToken).map
            (fun t => SubscribedToken.mk t st.streamingType)).filter
          (fun i => decide (subKey i ∉ st.subscribedTokens.map subKey))
    ∧ (subscribeToken st).pendingSubscriptions = (subscribeToken st).subscribedTokens
    ∧ (subscribeToken st).sentRequests =
        st.sentRequests ++
          (parseTokens st.newToken).map (fun t => subscribeRequest st.creds t st.streamingType) := by
  simp [subscribeToken, hw, hl, (sendAll_fields _ _ _ _).1, (sendAll_fields _ _ _ _).2.2.2.2.1]

theorem subscribeToken_reject (st : ClientState)
    (h : wsOpen st = false ∨ st.isLoggedIn = false) :
    subscribeToken st =
      addMsg st .error
        (.text (if !st.isLoggedIn then "Please login first" else "Not connected")) := by
  rcases h with h | h <;> simp [subscribeToken, h]

/-! ## The registry invariant along runs -/

theorem step_regKeys (st : ClientState) (op : Op) (h : regKeysNodup st)
    (hb : op = Op.subscribeBtn → (parseTokens st.newToken).Nodup) :
    regKeysNodup (step st op) := by
  cases op with
  | connectWS => exact h
  | openEvt =>
    unfold regKeysNodup
    simp only [step, onOpen, addMsg]
    split <;> simpa using h
  | errorEvt => exact h
  | closeEvt => exact h
  | loginBtn =>
    unfold regKeysNodup
    simp only [step, sendLogin, addMsg, sendReq]
    split <;> simpa using h
  | logoutBtn =>
    unfold regKeysNodup
    simp only [step, sendLogout, addMsg, sendReq]
    split
    · simp
    · exact h
  | disconnectWS => simp [regKeysNodup, step, disconnectWebSocket]
  | setTokenInput s => exact h
  | setTypeInput ty => exact h
  | msgEvt f =>
    simp only [step]
    unfold regKeysNodup
    rw [(onMessage_fields st f).1]
    exact h
  | unsubscribeBtn tok ty =>
    unfold regKeysNodup
    simp only [step, unsubscribeToken, addMsg, sendReq]
    split
    · exact h.sublist (((List.filter_sublist _).map subKey))
    · exact h
  | subscribeBtn =>
    have hnd := hb rfl
    simp only [step]
    by_cases hw : wsOpen st = true
    · by_cases hl : st.isLoggedIn = true
      · unfold regKeysNodup
        rw [(subscribeToken_pass st hw hl).1]
        rw [List.map_append, List.nodup_append]
        refine ⟨h, ?_, ?_⟩
        · have hbig : (((parseTokens st.newToken).map
              (fun t => SubscribedToken.mk t st.streamingType)).map subKey).Nodup := by
            rw [List.map_map]
            exact hnd.map (subKey_inj_of_type st.streamingType)
          exact hbig.sublist ((List.filter_sublist _).map subKey)
        · intro k hk1 hk2
          rcases List.mem_map.1 hk2 with ⟨i, hi, rfl⟩
          rcases List.mem_filter.1 hi with ⟨_, hdec⟩
          exact (of_decide_eq_true hdec) hk1
      · have hrej := subscribeToken_reject st (Or.inr (by simpa using hl))
        unfold regKeysNodup
        rw [hrej]
        exact h
    · have hrej := subscribeToken_reject st (Or.inl (by simpa using hw))
      unfold regKeysNodup
      rw [hrej]
      exact h

theorem run_regKeys (ops : List Op) : ∀ st : ClientState,
    regKeysNodup st → subBatchesOk st ops = true → regKeysNodup (run st ops) := by
  induction ops with
  | nil => intro st h _; exact h
  | cons op rest ih =>
    intro st h hok
    rw [subBatchesOk, Bool.and_eq_true] at hok
    refine ih (step st op) (step_regKeys st op h ?_) hok.2
    intro hop
    subst hop
    exact of_decide_eq_true hok.1

theorem pending_eq_subscribed_step (st : ClientState) (op : Op)
    (h : st.pendingSubscriptions = st.subscribedTokens) :
    (step st op).pendingSubscriptions = (step st op).subscribedTokens := by
  cases op with
  | connectWS => exact h
  | openEvt =>
    simp only [step, onOpen, addMsg]
    split <;> simpa using h
  | errorEvt => exact h
  | closeEvt => exact h
  | loginBtn =>
    simp only [step, sendLogin, addMsg, sendReq]
    split <;> simpa using h
  | logoutBtn =>
    simp only [step, sendLogout, addMsg, sendReq]
    split <;> simp [h]
  | disconnectWS => simp [step, disconnectWebSocket]
  | setTokenInput s => exact h
  | setTypeInput ty => exact h
  | msgEvt f =>
    simp only [step]
    rw [(onMessage_fields st f).1, (onMessage_fields st f).2.1, h]
  | unsubscribeBtn tok ty =>
    simp only [step, unsubscribeToken, addMsg, sendReq]
    split <;> simp [h]
  | subscribeBtn =>
    simp only [step, subscribeToken, addMsg, sendReq]
    split <;> simp [h]

theorem pending_eq_subscribed_run (ops : List Op) : ∀ st : ClientState,
    st.pendingSubscriptions = st.subscribedTokens →
    (run st ops).pendingSubscriptions = (run st ops).subscribedTokens := by
  induction ops with
  | nil => intro st h; exact h
  | cons op rest ih => intro st h; exact ih _ (pending_eq_subscribed_step st op h)

end MarketClient

namespace MarketClient

/-! ## The claims -/

/-- C1 counterexample: ingesting the spec's own scenario —
`{"response":{"data":{"symbol":"NSECM:2885","ltp":101.5,"p_change":1.2}}}`
followed by `{"response":{"data":{"symbol":"NSECM:2885","ltp":102.0}}}` —
leaves `changePercent` null, not `1.2`: the second frame's normalized object
replaces the stored record, so a field absent from the second frame does not
retain the first frame's value. -/
theorem ingest_merge_counterexample :
    readK (storedRecord (onMessage (onMessage initState frameA) frameB) "NSECM:2885")
        "changePercent" = JVal.null
    ∧ readK (storedRecord (onMessage initState frameA) "NSECM:2885") "changePercent"
        = JVal.num (1.2 : Rat)
    ∧ JVal.null ≠ JVal.num (1.2 : Rat) :=
  ⟨rfl, rfl, fun h => JVal.noConfusion h⟩

/-- C1 (amended): ingesting a frame whose extracted symbol is `s` stores the
frame's normalized object as the whole record for `s` — independent of any
previously stored record — while the records of every other symbol are
unchanged. -/
theorem ingest_replaces_record (st : ClientState) (parsed : JVal) (s : String) (fs : Obj)
    (h : extractMarket parsed = some (s, fs)) :
    storedRecord (onMessage st parsed) s = normalizeFrame fs
    ∧ (∀ s', s' ≠ s →
        lookupK (onMessage st parsed).marketData s' = lookupK st.marketData s') := by
  have hm := (onMessage_fields st parsed).2.2.2.2.1
  rw [h] at hm
  constructor
  · rw [storedRecord, hm, lookup_setK]
    simp
  · intro s' hs'
    rw [hm, lookup_setK, if_neg hs']

/-- C1 witness: a concrete flat frame for symbol `"X"` is stored as its
normalized object, and symbol `"Y"` is untouched. -/
theorem ingest_replaces_record_witness :
    storedRecord (onMessage initState flatFrame) "X" =
      normalizeFrame [("symbol", JVal.str "X"), ("ltp", JVal.num 5)]
    ∧ lookupK (onMessage initState flatFrame).marketData "Y" =
        lookupK initState.marketData "Y" := by
  have h := ingest_replaces_record initState flatFrame "X"
    [("symbol", JVal.str "X"), ("ltp", JVal.num 5)] rfl
  exact ⟨h.1, h.2 "Y" (by decide)⟩

/-- C2 counterexample: the `onerror` handler does not log the session out —
from a logged-in state a transport error leaves `isLoggedIn = true`,
refuting "becomes loggedOut ... on transport error". -/
theorem transport_error_keeps_loggedIn :
    (onError { initState with isLoggedIn := true }).isLoggedIn = true := rfl

/-- C2 (amended): `isLoggedIn` becomes true only when an inbound login
confirmation frame is processed and never on sending the login request;
it becomes false on transport close, on `disconnectWebSocket`, and on
`sendLogout` when the transport is open; a transport error and every other
operation leave it unchanged. -/
theorem auth_status_transitions (st : ClientState) (f : JVal) :
    (sendLogin st).isLoggedIn = st.isLoggedIn
    ∧ (isLoginConfirm f = true → (onMessage st f).isLoggedIn = true)
    ∧ (isLoginConfirm f = false → (onMessage st f).isLoggedIn = st.isLoggedIn)
    ∧ (onClose st).isLoggedIn = false
    ∧ (onError st).isLoggedIn = st.isLoggedIn
    ∧ (disconnectWebSocket st).isLoggedIn = false
    ∧ (wsOpen st = true → (sendLogout st).isLoggedIn = false)
    ∧ (connectWebSocket st).isLoggedIn = st.isLoggedIn
    ∧ (onOpen st).isLoggedIn = st.isLoggedIn
    ∧ (subscribeToken st).isLoggedIn = st.isLoggedIn
    ∧ (∀ tok ty, (unsubscribeToken st tok ty).isLoggedIn = st.isLoggedIn) := by
  refine ⟨?_, ?_, ?_, rfl, rfl, rfl, ?_, rfl, ?_, ?_, ?_⟩
  · by_cases h : wsOpen st <;> simp [sendLogin, h, addMsg, sendReq]
  · intro h; rw [(onMessage_fields st f).2.2.1, h]; rfl
  · intro h; rw [(onMessage_fields st f).2.2.1, h]; rfl
  · intro h; simp [sendLogout, h, addMsg, sendReq]
  · simp only [onOpen, addMsg]; split <;> rfl
  · by_cases hw : wsOpen st
    · by_cases hl : st.isLoggedIn
      · simp [subscribeToken, hw, hl, addMsg, (sendAll_fields _ _ _ _).2.2.1]
      · rw [subscribeToken_reject st (Or.inr (by simpa using hl))]; rfl
    · rw [subscribeToken_reject st (Or.inl (by simpa using hw))]; rfl
  · intro tok ty
    by_cases h : wsOpen st <;> simp [unsubscribeToken, h, addMsg, sendReq]

/-- C2 witness: at an open logged-in state, a confirmation frame sets (keeps)
`isLoggedIn`, a non-confirmation frame leaves it, and logout clears it. -/
theorem auth_status_transitions_witness :
    (onMessage openLoggedInState confirmFrame).isLoggedIn = true
    ∧ (onMessage openLoggedInState (JVal.str "tick")).isLoggedIn = true
    ∧ (sendLogout openLoggedInState).isLoggedIn = false :=
  ⟨(auth_status_transitions openLoggedInState confirmFrame).2.1 rfl,
   (auth_status_transitions openLoggedInState (JVal.str "tick")).2.2.1 rfl,
   (auth_status_transitions openLoggedInState confirmFrame).2.2.2.2.2.2.1 rfl⟩

/-- C3: processing a login confirmation frame while the pending set mirrors
the registry (the code keeps `pendingSubscriptionsRef` in lockstep with the
registry — see `pending_eq_subscribed_run`) sends exactly one subscribe
request per registry entry, in order, each carrying the entry's own token
and its own stored kind as streamingType. -/
theorem replay_on_login (st : ClientState) (f : JVal) (h1 : isLoginConfirm f = true)
    (h2 : st.pendingSubscriptions = st.subscribedTokens) :
    (onMessage st f).sentRequests =
      st.sentRequests ++
        st.subscribedTokens.map (fun sub => subscribeRequest st.creds sub.token sub.type)
    ∧ ((onMessage st f).sentRequests).length
        = st.sentRequests.length + st.subscribedTokens.length := by
  have h := (onMessage_fields st f).2.2.2.1
  rw [h1] at h
  simp only [if_true] at h
  rw [h2] at h
  exact ⟨h, by simp [h]⟩

/-- C3 witness: with two registry entries of different kinds, the
confirmation frame triggers exactly those two subscribe requests. -/
theorem replay_on_login_witness :
    (onMessage replayState confirmFrame).sentRequests =
      [subscribeRequest ⟨"KS02", "218", "dummy-session", "dummy-device"⟩ "NSECM:2885" .ltpinfo,
       subscribeRequest ⟨"KS02", "218", "dummy-session", "dummy-device"⟩ "NSECM:22"
         .marketPicture]
    ∧ (onMessage replayState confirmFrame).sentRequests.length = 2 := by
  have h := replay_on_login replayState confirmFrame rfl rfl
  exact ⟨h.1, h.2⟩

/-- C4: after `disconnectWebSocket`, regardless of the prior state, the
session is logged out, the registry, data store and pending set are empty,
the transport handle is dropped, and the persisted subscription-set and
login-flag keys are removed (credentials stay). -/
theorem disconnect_resets_state (st : ClientState) :
    (disconnectWebSocket st).isLoggedIn = false
    ∧ (disconnectWebSocket st).subscribedTokens = []
    ∧ (disconnectWebSocket st).marketData = []
    ∧ (disconnectWebSocket st).pendingSubscriptions = []
    ∧ (disconnectWebSocket st).storage.subscriptions = none
    ∧ (disconnectWebSocket st).storage.wasLoggedIn = none
    ∧ (disconnectWebSocket st).storage.credentials = st.storage.credentials
    ∧ (disconnectWebSocket st).ws = none :=
  ⟨rfl, rfl, rfl, rfl, rfl, rfl, rfl, rfl⟩

/-- C5: a subscribe invoked while logged out (or with the transport not
open) only appends one error log entry — `"Please login first"` when not
logged in, otherwise `"Not connected"` — and changes nothing else: no wire
send, no registry or store mutation, no persistence change. -/
theorem subscribe_rejected_when_not_ready (st : ClientState)
    (h : st.isLoggedIn = false ∨ wsOpen st = false) :
    subscribeToken st =
      addMsg st .error
        (.text (if !st.isLoggedIn then "Please login first" else "Not connected"))
    ∧ (subscribeToken st).sentRequests = st.sentRequests
    ∧ (subscribeToken st).subscribedTokens = st.subscribedTokens
    ∧ (subscribeToken st).pendingSubscriptions = st.pendingSubscriptions
    ∧ (subscribeToken st).marketData = st.marketData
    ∧ (subscribeToken st).isLoggedIn = st.isLoggedIn
    ∧ (subscribeToken st).storage = st.storage
    ∧ (subscribeToken st).newToken = st.newToken := by
  have hr := subscribeToken_reject st (by tauto)
  rw [hr]
  exact ⟨rfl, rfl, rfl, rfl, rfl, rfl, rfl, rfl⟩

/-- C5 witness: at the initial (logged-out, no transport) state the
subscribe is rejected with the error entry and nothing else changes. -/
theorem subscribe_rejected_when_not_ready_witness :
    subscribeToken initState = addMsg initState .error (.text "Please login first")
    ∧ (subscribeToken initState).sentRequests = []
    ∧ (subscribeToken initState).subscribedTokens = [] := by
  have h := subscribe_rejected_when_not_ready initState (Or.inl rfl)
  exact ⟨h.1, h.2.1, h.2.2.1⟩

/-- C6 counterexample: from the initial state, connect, open, log in and
subscribe with the input `"A,A"`: the registry ends with two identical
`("A", ltpinfo)` entries, because the dedup filters only against the
previously stored set, not within the batch. -/
theorem registry_duplicate_counterexample :
    ¬ (((run initState
          [Op.connectWS, Op.openEvt, Op.msgEvt confirmFrame,
           Op.setTokenInput "A,A", Op.subscribeBtn]).subscribedTokens.map subPair).Nodup)
    ∧ (run initState
          [Op.connectWS, Op.openEvt, Op.msgEvt confirmFrame,
           Op.setTokenInput "A,A", Op.subscribeBtn]).subscribedTokens =
        [⟨"A", .ltpinfo⟩, ⟨"A", .ltpinfo⟩] := by
  constructor
  · decide
  · decide

/-- C6 (amended): along every operation sequence whose subscribe presses
each parse a duplicate-free token batch, the registry never holds two
entries with identical (token, kind); and a subscribe whose parsed pairs are
all already registered leaves the stored set unchanged (the wire requests
are still sent). -/
theorem registry_nodup_invariant (st : ClientState) (ops : List Op)
    (h1 : (st.subscribedTokens.map subKey).Nodup)
    (h2 : subBatchesOk st ops = true) :
    ((run st ops).subscribedTokens.map subPair).Nodup
    ∧ ((∀ i ∈ (parseTokens st.newToken).map
            (fun t => SubscribedToken.mk t st.streamingType),
          subKey i ∈ st.subscribedTokens.map subKey) →
        (subscribeToken st).subscribedTokens = st.subscribedTokens) := by
  constructor
  · have hk := run_regKeys ops st h1 h2
    have hk2 : (((run st ops).subscribedTokens.map subPair).map keyFn).Nodup := by
      rw [List.map_map]
      exact hk
    exact List.Nodup.of_map keyFn hk2
  · intro hall
    by_cases hw : wsOpen st = true
    · by_cases hl : st.isLoggedIn = true
      · rw [(subscribeToken_pass st hw hl).1]
        have hnil :
            ((parseTokens st.newToken).map
                (fun t => SubscribedToken.mk t st.streamingType)).filter
              (fun i => decide (subKey i ∉ st.subscribedTokens.map subKey)) = [] := by
          apply List.filter_eq_nil_iff.mpr
          intro i hi
          simp [hall i hi]
        rw [hnil, List.append_nil]
      · rw [subscribeToken_reject st (Or.inr (by simpa using hl))]; rfl
    · rw [subscribeToken_reject st (Or.inl (by simpa using hw))]; rfl

/-- C6 witness: a logged-in state already holding `("A", ltpinfo)` with
input `"A"`: the registry stays duplicate-free and re-subscribing the
registered pair leaves the stored set unchanged. -/
theorem registry_nodup_invariant_witness :
    ((run dupSubState []).subscribedTokens.map subPair).Nodup
    ∧ (subscribeToken dupSubState).subscribedTokens = dupSubState.subscribedTokens := by
  have h := registry_nodup_invariant dupSubState [] (by decide) (by decide)
  exact ⟨h.1, h.2 (by decide)⟩

/-- C7 counterexample: when both aliases are present the trailing spread
makes the secondary alias win: a frame with `p_change = 1` and
`changePercent = 2` stores `changePercent = 2` (the claim demands `1`), and
likewise `tot_vol = 10`, `volume = 20` stores `volume = 20`. -/
theorem alias_preference_counterexample :
    readK (normalizeFrame
        [("symbol", .str "S"), ("p_change", .num 1), ("changePercent", .num 2)])
      "changePercent" = JVal.num 2
    ∧ readK (normalizeFrame
        [("symbol", .str "S"), ("tot_vol", .num 10), ("volume", .num 20)])
      "volume" = JVal.num 20
    ∧ JVal.num 2 ≠ JVal.num 1 := by
  refine ⟨rfl, rfl, ?_⟩
  intro h
  injection h with h2
  exact absurd h2 (by norm_num)

/-- C7 (amended): for every frame object with distinct keys, the stored
`changePercent` equals the frame's `changePercent` field when that key is
present and falls back to `p_change` otherwise; `volume` equals the frame's
`volume` when present and falls back to `tot_vol`; when neither alias is
present the canonical field is null (absent), not zero. -/
theorem alias_normalization (mi : Obj) (h : (mi.map Prod.fst).Nodup) :
    (readK (normalizeFrame mi) "changePercent" =
      (match lookupK mi "changePercent" with
       | some v => v
       | none => readK mi "p_change"))
    ∧ (readK (normalizeFrame mi) "volume" =
      (match lookupK mi "volume" with
       | some v => v
       | none => readK mi "tot_vol"))
    ∧ (lookupK mi "changePercent" = none → lookupK mi "p_change" = none →
        readK (normalizeFrame mi) "changePercent" = JVal.null)
    ∧ (lookupK mi "volume" = none → lookupK mi "tot_vol" = none →
        readK (normalizeFrame mi) "volume" = JVal.null) := by
  refine ⟨normalize_changePercent mi h, normalize_volume mi h, ?_, ?_⟩
  · intro hc hp
    rw [normalize_changePercent mi h, hc]
    simp [readK, hp]
  · intro hc hp
    rw [normalize_volume mi h, hc]
    simp [readK, hp]

/-- C7 witness: a frame with neither alias stores null (not zero) for both
canonical fields. -/
theorem alias_normalization_witness :
    readK (normalizeFrame noAliasObj) "changePercent" = JVal.null
    ∧ readK (normalizeFrame noAliasObj) "volume" = JVal.null := by
  have h := alias_normalization noAliasObj (by decide)
  exact ⟨h.2.2.1 rfl rfl, h.2.2.2 rfl rfl⟩

/-- C8 counterexample: `sendLogin` does not check `isLoggedIn` — invoked at
an open, already-logged-in state it still sends the login request, refuting
"in every other state it is a no-op that sends nothing". -/
theorem login_sends_when_already_loggedIn :
    (sendLogin openLoggedInState).sentRequests =
      [loginRequest ⟨"KS02", "218", "dummy-session", "dummy-device"⟩]
    ∧ (sendLogin openLoggedInState).isLoggedIn = true :=
  ⟨rfl, rfl⟩

/-- C8 (amended): `sendLogin` sends the login envelope when and only when
the transport exists and its readyState is OPEN — it checks neither
ConnectionStatus nor `isLoggedIn` (the rendering layer's button is disabled
in those cases); otherwise it reports `"Not connected"` and changes nothing
else; in no case does it set `isLoggedIn`. -/
theorem login_send_guard (st : ClientState) :
    (wsOpen st = true →
      sendLogin st =
        addMsg (sendReq st (loginRequest st.creds)) .sent (.req (loginRequest st.creds)))
    ∧ (wsOpen st = false → sendLogin st = addMsg st .error (.text "Not connected"))
    ∧ (sendLogin st).isLoggedIn = st.isLoggedIn
    ∧ (wsOpen st = true →
        (sendLogin st).sentRequests = st.sentRequests ++ [loginRequest st.creds]) := by
  refine ⟨fun h => by simp [sendLogin, h], fun h => by simp [sendLogin, h], ?_, ?_⟩
  · by_cases h : wsOpen st <;> simp [sendLogin, h, addMsg, sendReq]
  · intro h; simp [sendLogin, h, addMsg, sendReq]

/-- C8 witness: at an open state the login envelope is sent; at the initial
closed state only the error entry is produced. -/
theorem login_send_guard_witness :
    sendLogin openLoggedInState =
      addMsg (sendReq openLoggedInState (loginRequest openLoggedInState.creds)) .sent
        (.req (loginRequest openLoggedInState.creds))
    ∧ sendLogin initState = addMsg initState .error (.text "Not connected")
    ∧ (sendLogin openLoggedInState).sentRequests = [loginRequest openLoggedInState.creds] := by
  have h1 := login_send_guard openLoggedInState
  have h2 := login_send_guard initState
  exact ⟨h1.1 rfl, h2.2.1 rfl, h1.2.2.2 rfl⟩

/-- C9 counterexample: `connectWebSocket` invoked while already connected is
not a no-op — it constructs a second transport (`openedCount` 1 → 2) and
replaces the stored handle, refuting "invoked in any other state it is a
no-op that opens no second transport". -/
theorem connect_opens_second_transport :
    (connectWebSocket connectedState).openedCount = 2
    ∧ (connectWebSocket connectedState).ws = some ⟨1, false⟩ :=
  ⟨rfl, rfl⟩

/-- C9 (amended): `connectWebSocket` itself has no state guard — in every
state it opens exactly one new (not yet ready) transport and changes
nothing else; the rendering layer's connection button invokes it only while
the status is disconnected, and in every other status (connected or error)
invokes `disconnectWebSocket` instead. -/
theorem connect_unguarded (st : ClientState) :
    (connectWebSocket st).openedCount = st.openedCount + 1
    ∧ (connectWebSocket st).ws = some ⟨st.openedCount, false⟩
    ∧ (connectWebSocket st).wsStatus = st.wsStatus
    ∧ (connectWebSocket st).isLoggedIn = st.isLoggedIn
    ∧ (connectWebSocket st).subscribedTokens = st.subscribedTokens
    ∧ (connectWebSocket st).marketData = st.marketData
    ∧ (st.wsStatus = .disconnected → connectionButton st = connectWebSocket st)
    ∧ (st.wsStatus ≠ .disconnected → connectionButton st = disconnectWebSocket st) := by
  refine ⟨rfl, rfl, rfl, rfl, rfl, rfl, fun h => by simp [connectionButton, h],
    fun h => by simp [connectionButton, h]⟩

/-- C9 witness: from the initial (disconnected) state the button connects;
from the connected state it disconnects. -/
theorem connect_unguarded_witness :
    connectionButton initState = connectWebSocket initState
    ∧ connectionButton connectedState = disconnectWebSocket connectedState := by
  have h1 := connect_unguarded initState
  have h2 := connect_unguarded connectedState
  exact ⟨h1.2.2.2.2.2.2.1 rfl, h2.2.2.2.2.2.2.2 (by decide)⟩

/-- C10: with the transport open, `unsubscribeToken token kind` removes the
matching (token, kind) registry entry but deletes the market record keyed by
the token alone — so a remaining subscription of the same token under the
other kind keeps its registry entry while its market record is gone. -/
theorem unsubscribe_deletes_record_by_token (st : ClientState) (tok : String)
    (ty : StreamingType) (h : wsOpen st = true) :
    (unsubscribeToken st tok ty).marketData = removeK st.marketData tok
    ∧ lookupK (unsubscribeToken st tok ty).marketData tok = none
    ∧ (unsubscribeToken st tok ty).subscribedTokens =
        st.subscribedTokens.filter (fun i => decide (¬(i.token = tok ∧ i.type = ty)))
    ∧ (unsubscribeToken st tok ty).sentRequests =
        st.sentRequests ++ [unsubscribeRequest st.creds tok ty]
    ∧ (∀ ty', ty' ≠ ty → (⟨tok, ty'⟩ : SubscribedToken) ∈ st.subscribedTokens →
        (⟨tok, ty'⟩ : SubscribedToken) ∈ (unsubscribeToken st tok ty).subscribedTokens) := by
  refine ⟨?_, ?_, ?_, ?_, ?_⟩
  · simp [unsubscribeToken, h, addMsg, sendReq]
  · simp [unsubscribeToken, h, addMsg, sendReq, lookup_removeK]
  · simp [unsubscribeToken, h, addMsg, sendReq]
  · simp [unsubscribeToken, h, addMsg, sendReq]
  · intro ty' hty' hmem
    simp only [unsubscribeToken, h, if_true, addMsg, sendReq]
    refine List.mem_filter.mpr ⟨by simpa using hmem, ?_⟩
    simp [hty']

/-- C10 witness: subscribed to `"A"` under both kinds with a stored record,
unsubscribing `("A", ltpinfo)` keeps the `("A", marketPicture)` registry
entry but deletes the `"A"` market record. -/
theorem unsubscribe_deletes_record_by_token_witness :
    (unsubscribeToken twoKindsState "A" .ltpinfo).marketData = []
    ∧ lookupK (unsubscribeToken twoKindsState "A" .ltpinfo).marketData "A" = none
    ∧ (unsubscribeToken twoKindsState "A" .ltpinfo).subscribedTokens =
        [⟨"A", .marketPicture⟩]
    ∧ (⟨"A", .marketPicture⟩ : SubscribedToken) ∈
        (unsubscribeToken twoKindsState "A" .ltpinfo).subscribedTokens := by
  have h := unsubscribe_deletes_record_by_token twoKindsState "A" .ltpinfo rfl
  exact ⟨h.1, h.2.1, h.2.2.1, h.2.2.2.2 .marketPicture (by decide) (by decide)⟩

end MarketClient
